import Mathlib

/-!
Shallow embedding of the move-conflict and combined-motion-status logic of
the btms-ui repository (src/btms_ui/util.py, widgets.py, scene.py), with
theorems settling the specification claims about it.

Conventions used throughout:
* Python floats are modelled as rationals (ℚ); the code performs only
  sums, differences, absolute values, division and comparison on them.
* Source and destination positions (external enumerated ids from
  pcdsdevices' btms_config) are modelled by their numeric indices (Nat).
* The external exception hierarchy of conflict issues is modelled as a
  closed tagged variant with a catch-all constructor for further kinds.
* Qt signal emissions and device writes are modelled as values returned
  by the embedded functions (lists of emission / action descriptions).
-/

namespace BtmsUi

/-- A laser source position, identified by index (LSn). -/
abbrev SourcePos := Nat

/-- A conflict issue raised by the move checker, as a tagged variant
(`btms_config.MoveError` subclasses in the source).  `otherError` stands
for any further `MoveError` subclass not named by the UI code. -/
inductive MoveError where
  | movingActiveSource
  | pathCrossedError (crosses_source : SourcePos)
  | destinationInUseError
  | positionInvalidError
  | maintenanceModeActiveError
  | otherError (tag : Nat)
deriving DecidableEq, Repr

/-- `isinstance(issue, (PositionInvalidError, MaintenanceModeActiveError))`,
the class test used by `prune_expert_issues` (util.py line 54). -/
def expert_bypassable : MoveError → Bool
  | .positionInvalidError => true
  | .maintenanceModeActiveError => true
  | _ => false

/-- The safety-blocking issue kinds named by the spec (never removable,
even for experts). -/
def safety_blocking : MoveError → Bool
  | .movingActiveSource => true
  | .pathCrossedError _ => true
  | .destinationInUseError => true
  | _ => false

/-- `prune_expert_issues` (util.py lines 37-58): keep exactly the issues
that are not instances of `PositionInvalidError` or
`MaintenanceModeActiveError`. -/
def prune_expert_issues (issues : List MoveError) : List MoveError :=
  issues.filter fun issue => !(expert_bypassable issue)

theorem safety_blocking_not_bypassable (i : MoveError)
    (h : safety_blocking i = true) : expert_bypassable i = false := by
  cases i <;> simp_all [safety_blocking, expert_bypassable]

/-- Claim C1: `prune_expert_issues` removes only `PositionInvalidError`
and `MaintenanceModeActiveError` issues: the result is the subsequence of
the input consisting of the issues not of those two classes, so every
`MovingActiveSource`, `PathCrossedError`, and `DestinationInUseError`
issue of the input is preserved. -/
theorem prune_expert_issues_spec (issues : List MoveError) :
    (prune_expert_issues issues).Sublist issues ∧
    (∀ i ∈ prune_expert_issues issues, expert_bypassable i = false) ∧
    (∀ i ∈ issues, expert_bypassable i = false →
      i ∈ prune_expert_issues issues) ∧
    (∀ i ∈ issues, safety_blocking i = true →
      i ∈ prune_expert_issues issues) := by
  refine ⟨List.filter_sublist issues, ?_, ?_, ?_⟩
  · intro i hi
    have h := List.of_mem_filter hi
    simpa using h
  · intro i hi hb
    exact List.mem_filter.mpr ⟨hi, by simp [hb]⟩
  · intro i hi hs
    exact List.mem_filter.mpr
      ⟨hi, by simp [safety_blocking_not_bypassable i hs]⟩

/-- Witness for C1 at a concrete issue list: the safety-blocking
`MovingActiveSource` issue survives pruning, while the list
`[MovingActiveSource, PositionInvalidError]` is pruned to drop only the
calibration issue. -/
theorem prune_expert_issues_spec_witness :
    MoveError.movingActiveSource ∈
      prune_expert_issues
        [MoveError.movingActiveSource, MoveError.positionInvalidError] :=
  (prune_expert_issues_spec
      [MoveError.movingActiveSource, MoveError.positionInvalidError]).2.2.2
    MoveError.movingActiveSource (by simp) (by decide)

/-- Observable outcome of `BtmsSourceOverviewWidget.move_request`
(widgets.py lines 1205-1240): whether `_perform_move` ran, the issue list
handed to a `BtmsMoveConflictWidget` when one was shown, and whether a
combined move status was returned to the caller. -/
structure MoveRequestResult where
  performed_move : Bool
  shown_conflicts : Option (List MoveError)
  returned_status : Bool
deriving DecidableEq, Repr

/-- `BtmsSourceOverviewWidget.move_request` (widgets.py lines 1205-1240).
`hasDevice` is whether `self.device` is set; `checkIssues` is the list
returned by the external `device.check_move_all(target)`. -/
def filtered_issues (expert_mode : Bool)
    (checkIssues : List MoveError) : List MoveError :=
  if expert_mode then prune_expert_issues checkIssues else checkIssues

def move_request (hasDevice : Bool) (expert_mode : Bool)
    (checkIssues : List MoveError) : MoveRequestResult :=
  if hasDevice = false then
    { performed_move := false, shown_conflicts := none, returned_status := false }
  else
    let issues := filtered_issues expert_mode checkIssues
    if issues.isEmpty then
      { performed_move := true, shown_conflicts := none, returned_status := true }
    else
      { performed_move := false, shown_conflicts := some issues,
        returned_status := false }

/-- `BtmsMoveConflictWidget._move` (widgets.py lines 534-557): returns
whether the `request_move` signal (wired to `_perform_move`) is emitted.
`conflict_items` are the texts of the conflict list items; the code joins
them with newlines and, when the joined text is non-empty, only proceeds
after the operator answers Yes to the confirmation dialog. -/
def conflict_widget_move (conflict_items : List String)
    (operator_confirms : Bool) : Bool :=
  if String.intercalate (String.singleton (Char.ofNat 10)) conflict_items = "" then
    true
  else
    operator_confirms

/-- Claim C2: with a device present, if the conflict-checked (and, in
expert mode, expert-filtered) issue list is empty then `move_request`
performs the move immediately and returns its combined status; if
non-empty, `move_request` itself issues no motion, surfaces the issues in
the conflict widget, and the widget only emits the move request (while
conflicts are still listed) after the operator confirms. -/
theorem move_request_contract (expert_mode : Bool)
    (checkIssues : List MoveError) :
    (filtered_issues expert_mode checkIssues = [] →
      move_request true expert_mode checkIssues =
        { performed_move := true, shown_conflicts := none,
          returned_status := true }) ∧
    (filtered_issues expert_mode checkIssues ≠ [] →
      move_request true expert_mode checkIssues =
        { performed_move := false,
          shown_conflicts := some (filtered_issues expert_mode checkIssues),
          returned_status := false }) ∧
    (∀ items yes,
      String.intercalate (String.singleton (Char.ofNat 10)) items ≠ "" →
      (conflict_widget_move items yes = true ↔ yes = true)) := by
  refine ⟨?_, ?_, ?_⟩
  · intro h
    simp [move_request, h]
  · intro h
    have hne : (filtered_issues expert_mode checkIssues).isEmpty = false := by
      simpa [List.isEmpty_iff] using h
    simp [move_request, hne]
  · intro items yes h
    simp [conflict_widget_move, h]

/-- Witness for C2: a pruned-empty expert request moves immediately, a
raw `MovingActiveSource` conflict blocks, and the conflict widget with a
non-empty conflict text only proceeds on operator confirmation. -/
theorem move_request_contract_witness :
    move_request true true [MoveError.positionInvalidError] =
      { performed_move := true, shown_conflicts := none,
        returned_status := true } ∧
    move_request true false [MoveError.movingActiveSource] =
      { performed_move := false,
        shown_conflicts := some [MoveError.movingActiveSource],
        returned_status := false } ∧
    (conflict_widget_move ["MovingActiveSource: beam active"] false = true ↔
      False) := by
  refine ⟨?_, ?_, ?_⟩
  · exact (move_request_contract true [MoveError.positionInvalidError]).1
      (by decide)
  · exact (move_request_contract false [MoveError.movingActiveSource]).2.1
      (by decide)
  · rw [(move_request_contract false []).2.2
      ["MovingActiveSource: beam active"] false (by decide)]
    simp

/-- A device write performed while fixing an issue:
`state.sources[src].open_request.set(0)` is a shutter-close request. -/
inductive FixAction where
  | closeShutterRequest (source : SourcePos)
  | noAction
deriving DecidableEq, Repr

/-- `BtmsMoveConflictWidget.fix_issue` (widgets.py lines 594-604):
`MovingActiveSource` closes the requesting source's shutter,
`PathCrossedError` closes the crossing source's shutter,
`DestinationInUseError` and anything else do nothing. -/
def fix_issue (self_source : SourcePos) : MoveError → FixAction
  | .movingActiveSource => .closeShutterRequest self_source
  | .pathCrossedError crosses_source => .closeShutterRequest crosses_source
  | _ => .noAction

/-- Trace of `BtmsMoveConflictWidget._resolve_all_thread`: the device
writes performed, the settle delay slept (seconds), and how many times
`_update_checks` (the conflict re-check) is scheduled afterwards. -/
structure ResolveAllTrace where
  actions : List FixAction
  settle_delay_seconds : ℚ
  recheck_count : Nat
deriving DecidableEq, Repr

/-- `BtmsMoveConflictWidget._resolve_all_thread` (widgets.py lines
573-578): `fix_issue` on every current issue, `time.sleep(1.0)`, then a
single `_update_checks` scheduled in the GUI thread. -/
def resolve_all_thread (self_source : SourcePos)
    (issues : List MoveError) : ResolveAllTrace :=
  { actions := issues.map (fix_issue self_source)
    settle_delay_seconds := 1
    recheck_count := 1 }

/-- Claim C5: automatic resolution closes the requesting source's
shutter for `MovingActiveSource`, closes the named crossing source's
shutter for `PathCrossedError`, does nothing for
`DestinationInUseError`; and resolve-all attempts a fix for every issue
in the list and re-runs the conflict check exactly once after a settle
delay. -/
theorem resolve_all_actions (self_source : SourcePos)
    (issues : List MoveError) :
    fix_issue self_source MoveError.movingActiveSource =
      FixAction.closeShutterRequest self_source ∧
    (∀ crosses_source,
      fix_issue self_source (MoveError.pathCrossedError crosses_source) =
        FixAction.closeShutterRequest crosses_source) ∧
    fix_issue self_source MoveError.destinationInUseError =
      FixAction.noAction ∧
    (resolve_all_thread self_source issues).actions.length = issues.length ∧
    (∀ i (h1 : i < issues.length)
        (h2 : i < (resolve_all_thread self_source issues).actions.length),
      (resolve_all_thread self_source issues).actions.get ⟨i, h2⟩ =
        fix_issue self_source (issues.get ⟨i, h1⟩)) ∧
    (resolve_all_thread self_source issues).settle_delay_seconds = 1 ∧
    (resolve_all_thread self_source issues).recheck_count = 1 := by
  refine ⟨rfl, fun _ => rfl, rfl, by simp [resolve_all_thread], ?_, rfl, rfl⟩
  intro i h1 h2
  simp [resolve_all_thread]

/-- Witness for C5 at a concrete issue list and index. -/
theorem resolve_all_actions_witness :
    (resolve_all_thread 1
        [MoveError.pathCrossedError 3, MoveError.destinationInUseError]
      ).actions.get ⟨0, by decide⟩ =
      fix_issue 1 ([MoveError.pathCrossedError 3,
        MoveError.destinationInUseError].get ⟨0, by decide⟩) :=
  (resolve_all_actions 1
      [MoveError.pathCrossedError 3, MoveError.destinationInUseError]
    ).2.2.2.2.1 0 (by decide) (by decide)

/-- Result of one stop attempt inside `stop_all`: either the device's
`stop()` succeeded, or it raised and the exception was caught and
logged. -/
inductive StopOutcome where
  | stopped
  | failedLogged (message : String)
deriving DecidableEq, Repr

/-- One `st.device.stop()` call: `raisesError` says whether the external
device raises when stopped. -/
def attempt_stop (raisesError : Bool) : Except String Unit :=
  if raisesError then Except.error "Failed to stop device" else Except.ok ()

/-- `stop_all` inside `BtmsSourceOverviewWidget._perform_move`
(widgets.py lines 1180-1185): stop every axis device in turn, catching
and logging any exception, never propagating one.  The result is a total
list (not an `Except`): one outcome per axis, no early exit. -/
def stop_all (axes : List Bool) : List StopOutcome :=
  axes.map fun raisesError =>
    match attempt_stop raisesError with
    | Except.ok _ => StopOutcome.stopped
    | Except.error e => StopOutcome.failedLogged e

/-- Claim C6: cancelling attempts a stop on every axis regardless of
failures: the output has one outcome per input axis, a raising axis is
recorded as caught-and-logged, a non-raising one as stopped, and later
axes are still attempted after an earlier failure (the outcome at each
index depends only on that axis).  No exception escapes: `stop_all` is
total with a plain list result. -/
theorem stop_all_attempts_every_axis (axes : List Bool) :
    (stop_all axes).length = axes.length ∧
    (∀ i (h1 : i < axes.length) (h2 : i < (stop_all axes).length),
      (stop_all axes).get ⟨i, h2⟩ =
        if axes.get ⟨i, h1⟩ = true then
          StopOutcome.failedLogged "Failed to stop device"
        else StopOutcome.stopped) := by
  refine ⟨by simp [stop_all], ?_⟩
  intro i h1 h2
  simp only [stop_all, attempt_stop, List.get_eq_getElem, List.getElem_map]
  by_cases hb : axes[i] = true <;> simp [hb]

/-- Witness for C6: with the first axis raising, the second axis is
still stopped. -/
theorem stop_all_attempts_every_axis_witness :
    (stop_all [true, false]).get ⟨1, by decide⟩ =
      if ([true, false].get ⟨1, by decide⟩ : Bool) = true then
        StopOutcome.failedLogged "Failed to stop device"
      else StopOutcome.stopped :=
  (stop_all_attempts_every_axis [true, false]).2 1 (by decide) (by decide)

/-- Mutable state of a `QCombinedMoveStatus` (widgets.py lines 98-121):
the per-axis tuples and the finished counter.  `numStatuses` is
`len(self.move_statuses)`, fixed at construction. -/
structure CombinedState where
  numStatuses : Nat
  initials : List ℚ
  targets : List ℚ
  currents : List ℚ
  percents : List ℚ
  finished_count : Nat
deriving DecidableEq, Repr

/-- `QCombinedMoveStatus.__init__` (widgets.py lines 107-121): raises
`ValueError` on an empty move-status list, otherwise initialises every
per-axis tuple to zeros and the finished counter to 0. -/
def combined_move_status_init (numMoveStatuses : Nat) :
    Except String CombinedState :=
  if numMoveStatuses = 0 then
    Except.error "At least one MoveStatus required"
  else
    Except.ok
      { numStatuses := numMoveStatuses
        initials := List.replicate numMoveStatuses 0
        targets := List.replicate numMoveStatuses 0
        currents := List.replicate numMoveStatuses 0
        percents := List.replicate numMoveStatuses 0
        finished_count := 0 }

/-- `QCombinedMoveStatus.current_deltas` (widgets.py lines 123-130).
The source's `is not None` filter is vacuous here: the tuples hold only
floats from construction onwards. -/
def current_deltas (s : CombinedState) : List ℚ :=
  (s.currents.zip s.targets).map fun ct => |ct.2 - ct.1|

/-- `QCombinedMoveStatus.initial_deltas` (widgets.py lines 132-139). -/
def initial_deltas (s : CombinedState) : List ℚ :=
  (s.initials.zip s.targets).map fun it => |it.2 - it.1|

/-- A Qt signal emission from the combined status object. -/
inductive Emission where
  | statusChanged (overall : ℚ) (cur_deltas init_deltas : List ℚ)
  | finishedMoving
deriving DecidableEq, Repr

/-- Update one slot of a tuple when the callback supplied a value
(`if x is not None: ... = x`). -/
def set_opt (xs : List ℚ) (index : Nat) : Option ℚ → List ℚ
  | some v => xs.set index v
  | none => xs

/-- The tuple updates performed under the lock by
`QCombinedMoveStatus._watch_callback` (widgets.py lines 155-170). -/
def apply_update (s : CombinedState) (index : Nat)
    (fraction initial current target : Option ℚ) : CombinedState :=
  { s with
    initials := set_opt s.initials index initial
    targets := set_opt s.targets index target
    currents := set_opt s.currents index current
    percents := set_opt s.percents index fraction }

/-- `np.clip(x, 0, 1)`. -/
def clip01 (x : ℚ) : ℚ := max 0 (min x 1)

/-- The emission part of `_watch_callback` (widgets.py lines 172-187):
nothing on empty delta lists; a `ZeroDivisionError` on a zero
initial-delta sum is caught and nothing is emitted; otherwise
`status_changed` fires with `1 - clip(current_sum / final_sum, 0, 1)`,
followed by `finished_moving` when that is within 1e-6 of 1. -/
def watch_emits (s : CombinedState) : List Emission :=
  let cd := current_deltas s
  let idl := initial_deltas s
  if cd = [] ∨ idl = [] then []
  else if idl.sum = 0 then []
  else
    let overall := 1 - clip01 (cd.sum / idl.sum)
    Emission.statusChanged overall cd idl ::
      (if 1 - (1 / 1000000 : ℚ) ≤ overall then [Emission.finishedMoving]
       else [])

/-- `QCombinedMoveStatus._watch_callback` (widgets.py lines 141-187):
returns the new state and the emissions it produced.  When every axis
already reported finished, it returns early with no change. -/
def watch_callback (s : CombinedState) (index : Nat)
    (fraction initial current target : Option ℚ) :
    CombinedState × List Emission :=
  if s.finished_count = s.numStatuses then (s, [])
  else
    let s1 := apply_update s index fraction initial current target
    (s1, watch_emits s1)

/-- The three-axis state of spec Scenario D just before a duplicate
progress update: initial deltas `[100, 50, 10]`, current deltas
`[50, 50, 10]`. -/
def scenario_d_state : CombinedState :=
  { numStatuses := 3
    initials := [0, 0, 0]
    targets := [100, 50, 10]
    currents := [50, 0, 0]
    percents := [0, 0, 0]
    finished_count := 0 }

theorem clip01_nonneg (x : ℚ) : 0 ≤ clip01 x := le_max_left 0 (min x 1)

theorem clip01_le_one (x : ℚ) : clip01 x ≤ 1 :=
  max_le (by norm_num) (min_le_right x 1)

theorem watch_emits_status_mem {s : CombinedState} {overall : ℚ}
    {cd idl : List ℚ}
    (h : Emission.statusChanged overall cd idl ∈ watch_emits s) :
    cd = current_deltas s ∧ idl = initial_deltas s ∧ idl.sum ≠ 0 ∧
      overall = 1 - clip01 (cd.sum / idl.sum) := by
  unfold watch_emits at h
  by_cases he : current_deltas s = [] ∨ initial_deltas s = []
  · simp [he] at h
  · rw [if_neg he] at h
    by_cases hz : (initial_deltas s).sum = 0
    · simp [hz] at h
    · rw [if_neg hz] at h
      rcases List.mem_cons.mp h with h1 | h1
      · obtain ⟨ho, hc, hi⟩ := Emission.statusChanged.inj h1
        subst hc
        subst hi
        exact ⟨rfl, rfl, hz, by rw [ho]⟩
      · by_cases hf :
          1 - (1 / 1000000 : ℚ) ≤
            1 - clip01 ((current_deltas s).sum / (initial_deltas s).sum)
        · simp [hf] at h1
        · simp [hf] at h1

/-- Claim C3: every `status_changed` emission of the watch callback
carries an aggregate equal to `1 − clip(Σ|current deltas| / Σ|initial
deltas|, 0, 1)`, which always lies in `[0, 1]`, for arbitrary states and
updates (hence arbitrary, out-of-order or duplicate update sequences); a
zero initial-delta sum emits nothing; and in Scenario D (initial deltas
`[100, 50, 10]`, current deltas `[50, 50, 10]`) the emitted aggregate is
exactly `1 - 110/160 = 0.3125`. -/
theorem watch_callback_aggregate (s : CombinedState) (index : Nat)
    (fraction initial current target : Option ℚ) :
    (∀ overall cd idl,
      Emission.statusChanged overall cd idl ∈
          (watch_callback s index fraction initial current target).2 →
        0 ≤ overall ∧ overall ≤ 1 ∧
          overall = 1 - clip01 (cd.sum / idl.sum)) ∧
    ((initial_deltas
        (apply_update s index fraction initial current target)).sum = 0 →
      (watch_callback s index fraction initial current target).2 = []) ∧
    (watch_callback scenario_d_state 0 none none (some 50) none).2 =
      [Emission.statusChanged (5 / 16 : ℚ) [50, 50, 10] [100, 50, 10]] := by
  refine ⟨?_, ?_, ?_⟩
  · intro overall cd idl h
    unfold watch_callback at h
    by_cases hfin : s.finished_count = s.numStatuses
    · simp [hfin] at h
    · rw [if_neg hfin] at h
      obtain ⟨-, -, -, ho⟩ := watch_emits_status_mem h
      refine ⟨?_, ?_, ho⟩
      · rw [ho]
        have := clip01_le_one (cd.sum / idl.sum)
        linarith
      · rw [ho]
        have := clip01_nonneg (cd.sum / idl.sum)
        linarith
  · intro hz
    unfold watch_callback
    by_cases hfin : s.finished_count = s.numStatuses
    · simp [hfin]
    · rw [if_neg hfin]
      simp only []
      unfold watch_emits
      by_cases he :
        current_deltas (apply_update s index fraction initial current target)
            = [] ∨
          initial_deltas (apply_update s index fraction initial current target)
            = []
      · simp [he]
      · rw [if_neg he, if_pos hz]
  · norm_num [watch_callback, scenario_d_state, apply_update, set_opt,
      watch_emits, current_deltas, initial_deltas, clip01]
    exact ⟨List.cons_ne_nil _ _, List.cons_ne_nil _ _⟩

/-- Witness for C3: the bounds and formula hold at Scenario D's
concrete emission. -/
theorem watch_callback_aggregate_witness :
    0 ≤ (5 / 16 : ℚ) ∧ (5 / 16 : ℚ) ≤ 1 ∧
      (5 / 16 : ℚ) =
        1 - clip01 (([50, 50, 10] : List ℚ).sum /
          ([100, 50, 10] : List ℚ).sum) :=
  (watch_callback_aggregate scenario_d_state 0 none none (some 50) none).1
    (5 / 16) [50, 50, 10] [100, 50, 10]
    (by
      rw [(watch_callback_aggregate scenario_d_state 0 none none
        (some 50) none).2.2]
      simp)

/-- Claim C8: once the finished counter has reached the number of axis
statuses, a progress callback changes nothing and emits nothing. -/
theorem watch_callback_noop_after_finished (s : CombinedState)
    (index : Nat) (fraction initial current target : Option ℚ)
    (h : s.finished_count = s.numStatuses) :
    watch_callback s index fraction initial current target = (s, []) := by
  unfold watch_callback
  rw [if_pos h]

/-- Witness for C8 at a concrete fully-finished state: a further update
carrying fresh values is discarded. -/
theorem watch_callback_noop_after_finished_witness :
    watch_callback
        { numStatuses := 2, initials := [0, 0], targets := [5, 5],
          currents := [5, 5], percents := [1, 1], finished_count := 2 }
        0 (some (1 / 2)) none (some 3) none =
      ({ numStatuses := 2, initials := [0, 0], targets := [5, 5],
         currents := [5, 5], percents := [1, 1], finished_count := 2 },
        []) :=
  watch_callback_noop_after_finished
    { numStatuses := 2, initials := [0, 0], targets := [5, 5],
      currents := [5, 5], percents := [1, 1], finished_count := 2 }
    0 (some (1 / 2)) none (some 3) none rfl

/-- Claim C7: constructing the combined status with zero axis statuses
fails with a `ValueError`; with `n ≠ 0` statuses it succeeds with all
per-axis values zero and the finished counter zero. -/
theorem combined_move_status_init_spec :
    combined_move_status_init 0 =
      Except.error "At least one MoveStatus required" ∧
    (∀ n, n ≠ 0 →
      combined_move_status_init n =
        Except.ok
          { numStatuses := n
            initials := List.replicate n 0
            targets := List.replicate n 0
            currents := List.replicate n 0
            percents := List.replicate n 0
            finished_count := 0 }) := by
  refine ⟨rfl, ?_⟩
  intro n hn
  simp [combined_move_status_init, hn]

/-- Witness for C7 at three axis statuses. -/
theorem combined_move_status_init_spec_witness :
    combined_move_status_init 3 =
      Except.ok
        { numStatuses := 3
          initials := List.replicate 3 0
          targets := List.replicate 3 0
          currents := List.replicate 3 0
          percents := List.replicate 3 0
          finished_count := 0 } :=
  combined_move_status_init_spec.2 3 (by decide)

/-- An atomic step of one thread running
`QCombinedMoveStatus._finished_callback` (widgets.py lines 189-197).
`increment` is `self._finished_count += 1`, executed under
`with self.lock`; `checkEmit` is the
`if self._finished_count == len(self.move_statuses): ... emit` test,
which the source executes after releasing the lock, re-reading the
shared counter. -/
inductive FinAction where
  | increment
  | checkEmit
deriving DecidableEq, Repr

/-- Shared state seen by the racing finished callbacks: the finished
counter and how many times `finished_moving` has been emitted. -/
structure FinState where
  count : Nat
  emissions : Nat
deriving DecidableEq, Repr

/-- One atomic action of `_finished_callback` against the shared state,
for `n = len(self.move_statuses)` axes. -/
def finished_step (n : Nat) (s : FinState) : FinAction → FinState
  | FinAction.increment => { s with count := s.count + 1 }
  | FinAction.checkEmit =>
      if s.count = n then { s with emissions := s.emissions + 1 } else s

/-- Run an interleaved schedule of finished-callback actions. -/
def run_finished (n : Nat) (sched : List FinAction) (s : FinState) :
    FinState :=
  sched.foldl (finished_step n) s

/-- `sched` is a thread interleaving of `n` finished callbacks, each
performing its `increment` before its own `checkEmit`: `n` increments,
`n` checks, and no prefix with more checks than increments. -/
def valid_schedule (n : Nat) (sched : List FinAction) : Prop :=
  sched.count FinAction.increment = n ∧
  sched.count FinAction.checkEmit = n ∧
  ∀ k ≤ sched.length,
    (sched.take k).count FinAction.checkEmit ≤
      (sched.take k).count FinAction.increment

instance (n : Nat) (sched : List FinAction) :
    Decidable (valid_schedule n sched) := by
  unfold valid_schedule
  infer_instance

/-- Claim C4 counterexample (code bug): for two axes, the interleaving
in which both threads run their locked increment before either runs the
unlocked `count == len` check is a valid concurrent delivery of the two
finished callbacks, yet it emits the terminal `finished_moving` twice —
the serial interleaving emits it once, as the spec requires of every
interleaving. -/
theorem finished_callback_double_emit :
    valid_schedule 2
      [FinAction.increment, FinAction.increment,
       FinAction.checkEmit, FinAction.checkEmit] ∧
    (run_finished 2
        [FinAction.increment, FinAction.increment,
         FinAction.checkEmit, FinAction.checkEmit]
        { count := 0, emissions := 0 }).emissions = 2 ∧
    (run_finished 2
        [FinAction.increment, FinAction.checkEmit,
         FinAction.increment, FinAction.checkEmit]
        { count := 0, emissions := 0 }).emissions = 1 := by
  refine ⟨?_, rfl, rfl⟩
  refine ⟨rfl, rfl, ?_⟩
  decide

/-- The text shown by `BtmsLaserDestinationLabel` after `setText`
(widgets.py lines 43-63).  `destinationArrow n` stands for
`"→ {description} (LD{n})"`; the description string comes from the
external destination table. -/
inductive DisplayText where
  | unknownRaw (raw : String)
  | unknownZero
  | misconfigured
  | destinationArrow (index : Int)
deriving DecidableEq, Repr

/-- Observable result of `BtmsLaserDestinationLabel.setText`: the stored
`_destination` afterwards (a destination modelled by its index, as
produced by the external `DestinationPosition.from_index`), the
`new_destination` emissions, and the text displayed. -/
structure SetTextResult where
  destination : Option Int
  emitted : List (Option Int)
  displayed : DisplayText
deriving DecidableEq, Repr

/-- `BtmsLaserDestinationLabel.setText` (widgets.py lines 43-63).
`dest0` is the stored `_destination` before the call; `parsed` is the
result of `int(text)` (`none` when it raises `ValueError`). -/
def label_setText (dest0 : Option Int) (parsed : Option Int)
    (raw : String) : SetTextResult :=
  match parsed with
  | none =>
      { destination := dest0, emitted := [],
        displayed := DisplayText.unknownRaw raw }
  | some ld =>
      if ld = 0 then
        { destination := none, emitted := [none],
          displayed := DisplayText.unknownZero }
      else if ld < 0 then
        { destination := none, emitted := [none],
          displayed := DisplayText.misconfigured }
      else
        { destination := some ld, emitted := [some ld],
          displayed := DisplayText.destinationArrow ld }

/-- Claim C10: text parsing as 0 or a negative integer stores `None` and
emits `new_destination(None)`; a positive integer `n` stores the
destination with index `n` and emits it; non-integer text leaves the
stored destination unchanged and emits nothing. -/
theorem label_setText_spec (dest0 : Option Int) (parsed : Option Int)
    (raw : String) :
    (parsed = none →
      (label_setText dest0 parsed raw).destination = dest0 ∧
      (label_setText dest0 parsed raw).emitted = []) ∧
    (∀ n, parsed = some n → n ≤ 0 →
      (label_setText dest0 parsed raw).destination = none ∧
      (label_setText dest0 parsed raw).emitted = [none]) ∧
    (∀ n, parsed = some n → 0 < n →
      (label_setText dest0 parsed raw).destination = some n ∧
      (label_setText dest0 parsed raw).emitted = [some n]) := by
  refine ⟨?_, ?_, ?_⟩
  · intro h
    subst h
    exact ⟨rfl, rfl⟩
  · intro n h hn
    subst h
    rcases lt_or_eq_of_le hn with hlt | heq
    · have h0 : ¬n = 0 := by omega
      simp [label_setText, h0, hlt]
    · simp [label_setText, heq.symm]
  · intro n h hn
    subst h
    have h0 : ¬n = 0 := by omega
    have h1 : ¬n < 0 := by omega
    simp [label_setText, h0, h1]

/-- Witness for C10 at each concrete parse outcome. -/
theorem label_setText_spec_witness :
    ((label_setText (some 4) none "abc").destination = some 4 ∧
      (label_setText (some 4) none "abc").emitted = []) ∧
    ((label_setText (some 4) (some (-1)) "-1").destination = none ∧
      (label_setText (some 4) (some (-1)) "-1").emitted = [none]) ∧
    ((label_setText none (some 9) "9").destination = some 9 ∧
      (label_setText none (some 9) "9").emitted = [some 9]) :=
  ⟨(label_setText_spec (some 4) none "abc").1 rfl,
    (label_setText_spec (some 4) (some (-1)) "-1").2.1 (-1) rfl (by decide),
    (label_setText_spec none (some 9) "9").2.2 9 rfl (by decide)⟩

/-- A destination in the scene diagram, identified by index. -/
abbrev DestId := Nat

/-- Python's `min` over a non-empty iterable (none on empty, where the
source would raise). -/
def list_min : List ℚ → Option ℚ
  | [] => none
  | x :: xs => some (xs.foldl min x)

/-- Lookup in a Python dict built by a comprehension: the value of the
LAST entry inserted with the given key. -/
def dict_lookup_last (entries : List (ℚ × DestId)) (k : ℚ) :
    Option DestId :=
  (entries.reverse.find? fun e => decide (e.1 = k)).map Prod.snd

/-- `SwitchBox.get_closest_destination` (scene.py lines 742-752): build
`{abs(dest.x - pos): dest}` over the installed destinations (`dests`
lists each destination's scene x-coordinate with its id), return `None`
when the least distance is at least 100, else the dict entry at the
least distance. -/
def get_closest_destination (dests : List (ℚ × DestId)) (pos : ℚ) :
    Option DestId :=
  let distances := dests.map fun xd => (|xd.1 - pos|, xd.2)
  match list_min (distances.map Prod.fst) with
  | none => none
  | some m => if 100 ≤ m then none else dict_lookup_last distances m

theorem foldl_min_mem (x : ℚ) (xs : List ℚ) : xs.foldl min x ∈ x :: xs := by
  induction xs generalizing x with
  | nil => simp
  | cons y ys ih =>
    rw [List.foldl_cons]
    rcases List.mem_cons.mp (ih (min x y)) with h1 | h1
    · rw [h1]
      rcases min_choice x y with hc | hc
      · rw [hc]
        exact List.mem_cons_self x (y :: ys)
      · rw [hc]
        exact List.mem_cons_of_mem x (List.mem_cons_self y ys)
    · exact List.mem_cons_of_mem x (List.mem_cons_of_mem y h1)

theorem foldl_min_le (x : ℚ) (xs : List ℚ) :
    ∀ y ∈ x :: xs, xs.foldl min x ≤ y := by
  induction xs generalizing x with
  | nil =>
    intro y hy
    rw [List.mem_singleton] at hy
    rw [hy]
    exact le_refl x
  | cons z zs ih =>
    intro y hy
    rw [List.foldl_cons]
    have hbase : zs.foldl min (min x z) ≤ min x z :=
      ih (min x z) (min x z) (List.mem_cons_self _ _)
    rcases List.mem_cons.mp hy with h1 | h1
    · rw [h1]
      exact le_trans hbase (min_le_left x z)
    · rcases List.mem_cons.mp h1 with h2 | h2
      · rw [h2]
        exact le_trans hbase (min_le_right x z)
      · exact ih (min x z) y (List.mem_cons_of_mem _ h2)

theorem dict_lookup_last_attained (entries : List (ℚ × DestId)) (k : ℚ)
    (h : ∃ e ∈ entries, e.1 = k) :
    ∃ v, dict_lookup_last entries k = some v ∧ (k, v) ∈ entries := by
  obtain ⟨e, he, hk⟩ := h
  have hsome : (entries.reverse.find? fun e => decide (e.1 = k)).isSome := by
    rw [List.find?_isSome]
    exact ⟨e, List.mem_reverse.mpr he, by simp [hk]⟩
  obtain ⟨f, hfind⟩ := Option.isSome_iff_exists.mp hsome
  obtain ⟨f1, f2⟩ := f
  have hf1 : f1 = k := by simpa using List.find?_some hfind
  subst hf1
  have hfmem : (f1, f2) ∈ entries :=
    List.mem_reverse.mp (List.mem_of_find?_eq_some hfind)
  refine ⟨f2, ?_, hfmem⟩
  simp [dict_lookup_last, hfind]

/-- Claim C9: over a non-empty installed-destination table,
`get_closest_destination pos` returns `None` exactly when every
destination's horizontal distance to `pos` is at least 100, and
otherwise returns a destination at minimal horizontal distance. -/
theorem get_closest_destination_spec (dests : List (ℚ × DestId))
    (pos : ℚ) (hne : dests ≠ []) :
    ((get_closest_destination dests pos = none) ↔
      ∀ xd ∈ dests, 100 ≤ |xd.1 - pos|) ∧
    (∀ d, get_closest_destination dests pos = some d →
      ∃ xd ∈ dests, xd.2 = d ∧
        ∀ yd ∈ dests, |xd.1 - pos| ≤ |yd.1 - pos|) := by
  obtain ⟨a, as, rfl⟩ := List.exists_cons_of_ne_nil hne
  have hkeys :
      ((as.map fun xd => (|xd.1 - pos|, xd.2)).map Prod.fst) =
        as.map fun xd => |xd.1 - pos| := by
    rw [List.map_map]
    rfl
  have hred :
      get_closest_destination (a :: as) pos =
        (if 100 ≤ (as.map fun xd => |xd.1 - pos|).foldl min (|a.1 - pos|)
         then none
         else dict_lookup_last
           ((a :: as).map fun xd => (|xd.1 - pos|, xd.2))
           ((as.map fun xd => |xd.1 - pos|).foldl min (|a.1 - pos|))) := by
    unfold get_closest_destination
    simp only [List.map_cons, list_min, hkeys]
  have hmmem :
      (as.map fun xd => |xd.1 - pos|).foldl min (|a.1 - pos|) ∈
        (a :: as).map fun xd => |xd.1 - pos| := by
    have := foldl_min_mem (|a.1 - pos|) (as.map fun xd => |xd.1 - pos|)
    simpa using this
  have hmle :
      ∀ yd ∈ a :: as,
        (as.map fun xd => |xd.1 - pos|).foldl min (|a.1 - pos|) ≤
          |yd.1 - pos| := by
    intro yd hyd
    have hykey : |yd.1 - pos| ∈ (a :: as).map fun xd => |xd.1 - pos| :=
      List.mem_map_of_mem _ hyd
    have := foldl_min_le (|a.1 - pos|) (as.map fun xd => |xd.1 - pos|)
    rcases List.mem_cons.mp hykey with h1 | h1
    · exact h1 ▸ this _ (List.mem_cons_self _ _)
    · exact this _ (List.mem_cons_of_mem _ h1)
  obtain ⟨w, hw, hwm⟩ := List.mem_map.mp hmmem
  by_cases hcut :
      100 ≤ (as.map fun xd => |xd.1 - pos|).foldl min (|a.1 - pos|)
  · rw [hred, if_pos hcut]
    refine ⟨⟨fun _ => ?_, fun _ => rfl⟩, ?_⟩
    · intro xd hxd
      exact le_trans hcut (hmle xd hxd)
    · intro d hd
      cases hd
  · rw [hred, if_neg hcut]
    obtain ⟨v, hv, hvm⟩ :=
      dict_lookup_last_attained
        ((a :: as).map fun xd => (|xd.1 - pos|, xd.2))
        ((as.map fun xd => |xd.1 - pos|).foldl min (|a.1 - pos|))
        ⟨(|w.1 - pos|, w.2), List.mem_map_of_mem _ hw, by simpa using hwm⟩
    rw [hv]
    constructor
    · constructor
      · intro h
        cases h
      · intro hall
        exact absurd (le_trans (hall w hw) (le_of_eq hwm)) hcut
    · intro d hd
      obtain rfl : v = d := by
        simpa using hd
      obtain ⟨u, hu, hum⟩ := List.mem_map.mp hvm
      have hu1 := congrArg Prod.fst hum
      have hu2 := congrArg Prod.snd hum
      simp only [] at hu1 hu2
      exact ⟨u, hu, hu2, fun yd hyd => hu1 ▸ hmle yd hyd⟩

/-- Witness for C9: with a single destination at x = 0, querying
pos = 30 finds it, and the none-iff characterisation holds. -/
theorem get_closest_destination_spec_witness :
    ((get_closest_destination [((0 : ℚ), 1)] 30 = none) ↔
      ∀ xd ∈ [((0 : ℚ), 1)], 100 ≤ |xd.1 - 30|) :=
  (get_closest_destination_spec [((0 : ℚ), 1)] 30 (by decide)).1

end BtmsUi
